import Mathlib

/-!
Verification development for the virtual-desktop-controller core:
the 9-point gaze calibration engine (`src/eyetracking/calibration.py`),
the Kalman/moving-average gaze smoother (`src/eyetracking/kalman_tracker.py`),
and the rule-based gesture classifier (`src/gesture/gesture_recognizer.py`).

Python floats are modelled by exact rationals (`ℚ`); the claims under
study are about exact-arithmetic behaviour (round-trip, clamping,
decision-tree structure), so this is the intended idealization.
-/

/-! ## 3x3 linear algebra used by the calibration regression -/

/-- A length-3 vector of rationals (a row of coefficients `w1, w2, w3`). -/
structure Vec3 where
  v1 : ℚ
  v2 : ℚ
  v3 : ℚ
deriving DecidableEq

/-- A 3x3 matrix of rationals. -/
structure Mat3 where
  m11 : ℚ
  m12 : ℚ
  m13 : ℚ
  m21 : ℚ
  m22 : ℚ
  m23 : ℚ
  m31 : ℚ
  m32 : ℚ
  m33 : ℚ
deriving DecidableEq

def Mat3.det (m : Mat3) : ℚ :=
  m.m11 * (m.m22 * m.m33 - m.m23 * m.m32)
    - m.m12 * (m.m21 * m.m33 - m.m23 * m.m31)
    + m.m13 * (m.m21 * m.m32 - m.m22 * m.m31)

def Mat3.mulVec (m : Mat3) (v : Vec3) : Vec3 :=
  ⟨m.m11 * v.v1 + m.m12 * v.v2 + m.m13 * v.v3,
   m.m21 * v.v1 + m.m22 * v.v2 + m.m23 * v.v3,
   m.m31 * v.v1 + m.m32 * v.v2 + m.m33 * v.v3⟩

def Mat3.setCol1 (m : Mat3) (b : Vec3) : Mat3 :=
  { m with m11 := b.v1, m21 := b.v2, m31 := b.v3 }

def Mat3.setCol2 (m : Mat3) (b : Vec3) : Mat3 :=
  { m with m12 := b.v1, m22 := b.v2, m32 := b.v3 }

def Mat3.setCol3 (m : Mat3) (b : Vec3) : Mat3 :=
  { m with m13 := b.v1, m23 := b.v2, m33 := b.v3 }

/-- Cramer's-rule solution of the 3x3 system `m * w = b`. -/
def cramerSolve (m : Mat3) (b : Vec3) : Vec3 :=
  ⟨(m.setCol1 b).det / m.det, (m.setCol2 b).det / m.det, (m.setCol3 b).det / m.det⟩

/-- Solve `m * w = b`; fails on a singular matrix. -/
def solve3 (m : Mat3) (b : Vec3) : Option Vec3 :=
  if m.det = 0 then none else some (cramerSolve m b)

theorem cramerSolve_mulVec (m : Mat3) (b : Vec3) (hd : m.det ≠ 0) :
    m.mulVec (cramerSolve m b) = b := by
  obtain ⟨a11, a12, a13, a21, a22, a23, a31, a32, a33⟩ := m
  obtain ⟨b1, b2, b3⟩ := b
  simp only [Mat3.mulVec, cramerSolve, Mat3.det, Mat3.setCol1, Mat3.setCol2, Mat3.setCol3] at *
  refine congrArg₂ (fun x y => Vec3.mk x y _) ?_ ?_ |>.trans (congrArg _ ?_) <;>
    field_simp <;> ring

theorem mulVec_inj (m : Mat3) (v w : Vec3) (hd : m.det ≠ 0)
    (hv : m.mulVec v = m.mulVec w) : v = w := by
  obtain ⟨a11, a12, a13, a21, a22, a23, a31, a32, a33⟩ := m
  obtain ⟨v1, v2, v3⟩ := v
  obtain ⟨w1, w2, w3⟩ := w
  simp only [Mat3.mulVec, Mat3.det, Vec3.mk.injEq] at hv hd ⊢
  obtain ⟨h1, h2, h3⟩ := hv
  refine ⟨mul_left_cancel₀ hd ?_, mul_left_cancel₀ hd ?_, mul_left_cancel₀ hd ?_⟩
  · linear_combination (a22 * a33 - a23 * a32) * h1 - (a12 * a33 - a13 * a32) * h2 +
      (a12 * a23 - a13 * a22) * h3
  · linear_combination (-(a21 * a33) + a23 * a31) * h1 + (a11 * a33 - a13 * a31) * h2 -
      (a11 * a23 - a13 * a21) * h3
  · linear_combination (a21 * a32 - a22 * a31) * h1 - (a11 * a32 - a12 * a31) * h2 +
      (a11 * a22 - a12 * a21) * h3

/-! ## CalibrationManager (`src/eyetracking/calibration.py`) -/

/-- One collected calibration sample: `{'screen': (sx, sy), 'iris': (ix, iy)}`. -/
structure Sample where
  screen : ℚ × ℚ
  iris : ℚ × ℚ
deriving DecidableEq

/-- State of `CalibrationManager`: the collected samples, the two fitted
coefficient vectors (`None` before a successful fit), and the fitted flag. -/
structure CalibrationManager where
  calibration_points : List Sample
  mapping_matrix_x : Option Vec3
  mapping_matrix_y : Option Vec3
  is_calibrated : Bool
deriving DecidableEq

/-- Python `CalibrationManager.__init__`. -/
def CalibrationManager.init : CalibrationManager :=
  { calibration_points := [], mapping_matrix_x := none, mapping_matrix_y := none,
    is_calibrated := false }

/-- Python `CalibrationManager.reset`. -/
def CalibrationManager.reset (s : CalibrationManager) : CalibrationManager :=
  { calibration_points := [], mapping_matrix_x := none, mapping_matrix_y := none,
    is_calibrated := false }

/-- Python `CalibrationManager.collect_sample`: appends a sample; no-op when the iris
observation is absent (Python `if not iris_data: return`). -/
def CalibrationManager.collect_sample (s : CalibrationManager) (screen_x screen_y : ℚ)
    (iris_data : Option (ℚ × ℚ)) : CalibrationManager :=
  match iris_data with
  | none => s
  | some p =>
      { s with calibration_points :=
          s.calibration_points ++ [{ screen := (screen_x, screen_y), iris := p }] }

/-- Homogeneous iris row `[ix, iy, 1]` of a sample. -/
def Sample.homog (s : Sample) : Vec3 := ⟨s.iris.1, s.iris.2, 1⟩

def Mat3.add (a b : Mat3) : Mat3 :=
  ⟨a.m11 + b.m11, a.m12 + b.m12, a.m13 + b.m13,
   a.m21 + b.m21, a.m22 + b.m22, a.m23 + b.m23,
   a.m31 + b.m31, a.m32 + b.m32, a.m33 + b.m33⟩

def Vec3.add (a b : Vec3) : Vec3 := ⟨a.v1 + b.v1, a.v2 + b.v2, a.v3 + b.v3⟩

def Vec3.smul (c : ℚ) (v : Vec3) : Vec3 := ⟨c * v.v1, c * v.v2, c * v.v3⟩

/-- Outer product `h * hᵀ` of a homogeneous row, one summand of `AᵀA`. -/
def outerSq (h : Vec3) : Mat3 :=
  ⟨h.v1 * h.v1, h.v1 * h.v2, h.v1 * h.v3,
   h.v2 * h.v1, h.v2 * h.v2, h.v2 * h.v3,
   h.v3 * h.v1, h.v3 * h.v2, h.v3 * h.v3⟩

/-- Gram matrix `AᵀA` of the sample matrix `A` whose rows are `[ix, iy, 1]`. -/
def gram : List Sample → Mat3
  | [] => ⟨0, 0, 0, 0, 0, 0, 0, 0, 0⟩
  | s :: t => (outerSq s.homog).add (gram t)

/-- Right-hand side `Aᵀb` for target axis `f` (screen x or screen y). -/
def gramRhs (f : Sample → ℚ) : List Sample → Vec3
  | [] => ⟨0, 0, 0⟩
  | s :: t => (Vec3.smul (f s) s.homog).add (gramRhs f t)

/-- Python `CalibrationManager.calibrate`: with fewer than 4 samples, fail and leave the
state untouched; otherwise fit `Screen = A * Iris + B` per axis.

`np.linalg.lstsq(A, b, rcond=None)` is modelled as the exact solution of the
normal equations `AᵀA w = Aᵀb`: whenever `A` has full column rank (equivalently
the Gram matrix is nonsingular) the least-squares solution is unique and is
exactly this. Rank-deficient sample sets, where `lstsq` would return the
minimum-norm least-squares solution, are outside this model and are mapped to
failure; no claim under study depends on that branch. -/
def CalibrationManager.calibrate (s : CalibrationManager) : Bool × CalibrationManager :=
  if s.calibration_points.length < 4 then (false, s)
  else
    let g := gram s.calibration_points
    match solve3 g (gramRhs (fun p => p.screen.1) s.calibration_points),
          solve3 g (gramRhs (fun p => p.screen.2) s.calibration_points) with
    | some wx, some wy =>
        (true, { s with mapping_matrix_x := some wx, mapping_matrix_y := some wy,
                        is_calibrated := true })
    | _, _ => (false, s)

/-- Python's binary `min`, written with an explicit comparison so the kernel
can evaluate it on rational literals. -/
def rmin (a b : ℚ) : ℚ := if a ≤ b then a else b

/-- Python's binary `max`, written with an explicit comparison so the kernel
can evaluate it on rational literals. -/
def rmax (a b : ℚ) : ℚ := if a ≤ b then b else a

/-- Python `max(0.0, min(1.0, v))`. -/
def clamp01 (v : ℚ) : ℚ := rmax 0 (rmin 1 v)

theorem rmin_eq_min (a b : ℚ) : rmin a b = min a b := by rw [rmin, min_def]

theorem rmax_eq_max (a b : ℚ) : rmax a b = max a b := by rw [rmax, max_def]

/-- Python `np.dot([ix, iy, 1], w)`. -/
def dotH (ix iy : ℚ) (w : Vec3) : ℚ := ix * w.v1 + iy * w.v2 + w.v3

/-- Python `CalibrationManager.map_to_screen`: `None` when not calibrated or the input
is absent; otherwise evaluate both fitted axis equations on `[ix, iy, 1]` and
clamp each output to `[0, 1]`. A missing coefficient vector (only possible in
states no fit produced) would raise in Python and be caught by the
`except` branch returning `None`; it is mapped to `none` here. -/
def CalibrationManager.map_to_screen (s : CalibrationManager)
    (iris_data : Option (ℚ × ℚ)) : Option (ℚ × ℚ) :=
  if s.is_calibrated = false then none
  else
    match iris_data, s.mapping_matrix_x, s.mapping_matrix_y with
    | some (ix, iy), some wx, some wy =>
        some (clamp01 (dotH ix iy wx), clamp01 (dotH ix iy wy))
    | _, _, _ => none

/-- Python `CalibrationManager.get_calibration_points`: the fixed 9-point grid. -/
def get_calibration_points : List (ℚ × ℚ) :=
  [(0.1, 0.1), (0.5, 0.1), (0.9, 0.1),
   (0.1, 0.5), (0.5, 0.5), (0.9, 0.5),
   (0.1, 0.9), (0.5, 0.9), (0.9, 0.9)]

/-! ## KalmanTracker (`src/eyetracking/kalman_tracker.py`) -/

/-- Modelled from the spec: one per-axis constant-velocity Kalman filter as
created by `_init_kalman_filters` (the filter internals live in the external
`filterpy` library, not in this repository). State `x = (pos, vel)`,
covariance `P` with entries `p11 p12 p21 p22`, process noise `Q = q * I`
(filterpy initializes `Q` to the identity and the source scales it by the
`process_noise` scalar), measurement noise `R = r`, transition
`F = [[1, 1], [0, 1]]`, measurement `H = [1, 0]`. A fresh filter has
`x = 0`, `P = I` (the source's `P *= 1.0` keeps the identity). -/
structure KFilter where
  pos : ℚ
  vel : ℚ
  p11 : ℚ
  p12 : ℚ
  p21 : ℚ
  p22 : ℚ
  q : ℚ
  r : ℚ
deriving DecidableEq

/-- Fresh filter as built by `_init_kalman_filters`. -/
def KFilter.init (q r : ℚ) : KFilter :=
  { pos := 0, vel := 0, p11 := 1, p12 := 0, p21 := 0, p22 := 1, q := q, r := r }

/-- Modelled from the spec: the predict step `x ← F x`, `P ← F P Fᵀ + Q` of the
constant-velocity filter (`filterpy`'s `predict`, library code not in src). -/
def KFilter.predict (k : KFilter) : KFilter :=
  { k with
      pos := k.pos + k.vel
      vel := k.vel
      p11 := k.p11 + k.p21 + k.p12 + k.p22 + k.q
      p12 := k.p12 + k.p22
      p21 := k.p21 + k.p22
      p22 := k.p22 + k.q }

/-- Modelled from the spec: the correct step of the filter (`filterpy`'s
`update`, library code not in src): innovation `S = p11 + r`, gain
`K = (p11 / S, p21 / S)`, state `x ← x + K (z - pos)`, covariance
`P ← (I - K H) P` (for the optimal gain this equals the Joseph-form update
`(I - K H) P (I - K H)ᵀ + K R Kᵀ` that filterpy computes, exactly, in `ℚ`). -/
def KFilter.correct (k : KFilter) (z : ℚ) : KFilter :=
  let s := k.p11 + k.r
  let k1 := k.p11 / s
  let k2 := k.p21 / s
  let resid := z - k.pos
  { k with
      pos := k.pos + k1 * resid
      vel := k.vel + k2 * resid
      p11 := (1 - k1) * k.p11
      p12 := (1 - k1) * k.p12
      p21 := k.p21 - k2 * k.p11
      p22 := k.p22 - k2 * k.p12 }

/-- State of `KalmanTracker`: backend availability flag (`HAS_FILTERPY`), the
two per-axis filters (`None` when filterpy is unavailable), the `_initialized`
flag, the fallback `_fallback_window`, and `_window_size`. The x and y filters
are always constructed together by `__init__`. -/
structure KalmanTracker where
  hasFilterpy : Bool
  kfX : Option KFilter
  kfY : Option KFilter
  initialized : Bool
  fallback_window : List (ℚ × ℚ)
  window_size : Nat
deriving DecidableEq

/-- Python `KalmanTracker.__init__(process_noise, measurement_noise)`; `hasF` models
the ambient `HAS_FILTERPY` constant. -/
def KalmanTracker.init (hasF : Bool) (q r : ℚ) : KalmanTracker :=
  { hasFilterpy := hasF,
    kfX := if hasF then some (KFilter.init q r) else none,
    kfY := if hasF then some (KFilter.init q r) else none,
    initialized := false, fallback_window := [], window_size := 5 }

/-- Python `KalmanTracker._kalman_update`: on the first observation seed each filter
state with the raw value and zero velocity, then run one predict-correct cycle
per axis and clamp the position estimates to `[0, 1]`. -/
def KalmanTracker.kalman_update (s : KalmanTracker) (kx ky : KFilter) (x y : ℚ) :
    Option (ℚ × ℚ) × KalmanTracker :=
  let kx0 := if s.initialized then kx else { kx with pos := x, vel := 0 }
  let ky0 := if s.initialized then ky else { ky with pos := y, vel := 0 }
  let kx1 := kx0.predict.correct x
  let ky1 := ky0.predict.correct y
  (some (clamp01 kx1.pos, clamp01 ky1.pos),
   { s with kfX := some kx1, kfY := some ky1, initialized := true })

/-- Python `KalmanTracker._moving_average_update`: append the observation, pop the
oldest entry when the window exceeds `_window_size`, return the per-axis mean. -/
def KalmanTracker.moving_average_update (s : KalmanTracker) (x y : ℚ) :
    Option (ℚ × ℚ) × KalmanTracker :=
  let w0 := s.fallback_window ++ [(x, y)]
  let w := if s.window_size < w0.length then w0.tail else w0
  (some ((w.map Prod.fst).sum / (w.length : ℚ), (w.map Prod.snd).sum / (w.length : ℚ)),
   { s with fallback_window := w })

/-- Python `KalmanTracker.update`: `None` in, `None` out (before any state change);
otherwise dispatch on `HAS_FILTERPY and self._kf_x is not None`. -/
def KalmanTracker.update (s : KalmanTracker) (gaze_point : Option (ℚ × ℚ)) :
    Option (ℚ × ℚ) × KalmanTracker :=
  match gaze_point with
  | none => (none, s)
  | some (x, y) =>
      if s.hasFilterpy then
        match s.kfX, s.kfY with
        | some kx, some ky => s.kalman_update kx ky x y
        | _, _ => s.moving_average_update x y
      else s.moving_average_update x y

/-- Python `KalmanTracker.reset`: clears `_initialized` and `_fallback_window`. The
source's `self._kf_x.P *= 1.0` / `self._kf_y.P *= 1.0` multiply the covariance
by one, leaving the filters (including `P`) unchanged, so `kfX`/`kfY` are kept
as they are. -/
def KalmanTracker.reset (s : KalmanTracker) : KalmanTracker :=
  { s with initialized := false, fallback_window := [] }

/-- Fold a sequence of observations through `KalmanTracker.update`. -/
def KalmanTracker.run (s : KalmanTracker) (l : List (Option (ℚ × ℚ))) : KalmanTracker :=
  l.foldl (fun st o => (st.update o).2) s

/-! ## GestureRecognizer (`src/gesture/gesture_recognizer.py`) -/

/-- A single MediaPipe hand landmark (only the `x`/`y` fields are read). -/
structure Landmark where
  x : ℚ
  y : ℚ
deriving DecidableEq

/-- Count of extended fingers, exactly as `_classify_gesture` computes it:
one per non-thumb finger whose tip y is strictly below its PIP y (image y grows
downward, so `<` means "above"), plus one when the thumb-tip / thumb-IP
x-distance exceeds `0.04`. -/
def extendedCount (tIp tTip iPip iTip mPip mTip rPip rTip pPip pTip : Landmark) : Nat :=
  (if iTip.y < iPip.y then 1 else 0) +
  (if mTip.y < mPip.y then 1 else 0) +
  (if rTip.y < rPip.y then 1 else 0) +
  (if pTip.y < pPip.y then 1 else 0) +
  (if |tTip.x - tIp.x| > 0.04 then 1 else 0)

/-- The body of `_classify_gesture` after the ten landmark reads, on the thumb
IP/tip, index PIP/tip, middle PIP/tip, ring PIP/tip and pinky PIP/tip
landmarks. The pinch test compares the Euclidean thumb-tip/index-tip distance
with `0.05`; since both sides are nonnegative this is modelled exactly by
comparing squares, `dx^2 + dy^2 < 0.0025`. -/
def classifyFrom (tIp tTip iPip iTip mPip mTip rPip rTip pPip pTip : Landmark) :
    String × ℚ :=
  let n := extendedCount tIp tTip iPip iTip mPip mTip rPip rTip pPip pTip
  if n = 0 then ("CLOSED_FIST", 0.9)
  else if 4 ≤ n then ("OPEN_PALM", 0.9)
  else if n = 1 then
    if iTip.y < iPip.y then ("POINTING", 0.9) else ("UNKNOWN", 0.5)
  else if n = 2 then
    if |tTip.x - tIp.x| > 0.04 ∧ iTip.y < iPip.y then
      if (tTip.x - iTip.x) ^ 2 + (tTip.y - iTip.y) ^ 2 < 0.0025 then ("PINCH", 0.9)
      else ("PEACE_SIGN", 0.8)
    else ("UNKNOWN", 0.5)
  else ("UNKNOWN", 0.5)

/-- The `try` block of `_classify_gesture`: every landmark read
`landmarks[i]` may raise `IndexError`; a failed read aborts the whole block
(modelled by `none`, the order of the reads being irrelevant to the result). -/
def classifyCore (landmarks : List Landmark) : Option (String × ℚ) :=
  match landmarks[3]?, landmarks[4]?, landmarks[6]?, landmarks[8]?, landmarks[10]?,
        landmarks[12]?, landmarks[14]?, landmarks[16]?, landmarks[18]?, landmarks[20]? with
  | some tIp, some tTip, some iPip, some iTip, some mPip, some mTip, some rPip,
      some rTip, some pPip, some pTip =>
      some (classifyFrom tIp tTip iPip iTip mPip mTip rPip rTip pPip pTip)
  | _, _, _, _, _, _, _, _, _, _ => none

/-- Python `GestureRecognizer._classify_gesture`: the `except` branch converts any
error inside the `try` block into the sentinel `('ERROR', 0.0)`. -/
def classify_gesture (landmarks : List Landmark) : String × ℚ :=
  match classifyCore landmarks with
  | some g => g
  | none => ("ERROR", 0.0)

/-- The closed gesture enumeration of the spec's data model. -/
def gestureLabels : List String :=
  ["CLOSED_FIST", "OPEN_PALM", "POINTING", "PINCH", "PEACE_SIGN", "UNKNOWN"]

/-! ## Basic clamp lemmas -/

theorem clamp01_nonneg (v : ℚ) : 0 ≤ clamp01 v := by
  rw [clamp01, rmax_eq_max, rmin_eq_min]
  exact le_max_left 0 _

theorem clamp01_le_one (v : ℚ) : clamp01 v ≤ 1 := by
  rw [clamp01, rmax_eq_max, rmin_eq_min]
  exact max_le (by norm_num) (min_le_left 1 v)

theorem clamp01_eq_self (v : ℚ) (h0 : 0 ≤ v) (h1 : v ≤ 1) : clamp01 v = v := by
  rw [clamp01, rmax_eq_max, rmin_eq_min, min_eq_right h1, max_eq_right h0]

/-! ## Claims about the calibration engine -/

/-- C4: with fewer than 4 collected samples, `calibrate` returns failure and
leaves the whole state — the previously fitted model (present or absent) and
the calibrated flag included — unchanged, so the caller can collect more
samples and retry. -/
theorem calibrate_insufficient_samples (s : CalibrationManager)
    (h : s.calibration_points.length < 4) :
    s.calibrate = (false, s) := by
  unfold CalibrationManager.calibrate
  rw [if_pos h]

/-- A state holding one sample and a previously fitted model. -/
def oneSampleFitted : CalibrationManager :=
  { calibration_points := [{ screen := (0.5, 0.5), iris := (0.25, 0.25) }],
    mapping_matrix_x := some ⟨1, 0, 0⟩, mapping_matrix_y := some ⟨0, 1, 0⟩,
    is_calibrated := true }

theorem calibrate_insufficient_samples_witness :
    oneSampleFitted.calibrate = (false, oneSampleFitted) :=
  calibrate_insufficient_samples oneSampleFitted (by decide)

/-- C2: `map_to_screen` returns `none` when no model is fitted or the input is
absent; with a fitted model it evaluates the two axis equations on the
homogeneous input `[ix, iy, 1]` and clamps each output coordinate
independently to `[0, 1]`; consequently every non-`none` result lies in
`[0, 1] × [0, 1]`, whatever the input. -/
theorem map_to_screen_clamped (s : CalibrationManager) (inp : Option (ℚ × ℚ)) :
    (s.is_calibrated = false ∨ inp = none → s.map_to_screen inp = none) ∧
    (∀ ix iy wx wy, s.is_calibrated = true → inp = some (ix, iy) →
      s.mapping_matrix_x = some wx → s.mapping_matrix_y = some wy →
      s.map_to_screen inp = some (clamp01 (dotH ix iy wx), clamp01 (dotH ix iy wy))) ∧
    (∀ p, s.map_to_screen inp = some p →
      0 ≤ p.1 ∧ p.1 ≤ 1 ∧ 0 ≤ p.2 ∧ p.2 ≤ 1) := by
  refine ⟨?_, ?_, ?_⟩
  · rintro (hcal | hinp)
    · unfold CalibrationManager.map_to_screen
      rw [if_pos hcal]
    · unfold CalibrationManager.map_to_screen
      subst hinp
      rcases h : s.is_calibrated <;> simp
  · rintro ix iy wx wy hcal rfl hwx hwy
    unfold CalibrationManager.map_to_screen
    rw [hcal, hwx, hwy]
    simp
  · rintro p hp
    unfold CalibrationManager.map_to_screen at hp
    rcases hcal : s.is_calibrated with _ | _ <;> rw [hcal] at hp
    · simp at hp
    · rcases inp with _ | ⟨ix, iy⟩ <;> rcases hwx : s.mapping_matrix_x with _ | wx <;>
        rcases hwy : s.mapping_matrix_y with _ | wy <;> rw [hwx, hwy] at hp <;>
        simp at hp
      rcases hp with ⟨rfl, rfl⟩
      exact ⟨clamp01_nonneg _, clamp01_le_one _, clamp01_nonneg _, clamp01_le_one _⟩

/-- A fitted state mapping screen x from iris x and screen y from iris y. -/
def fittedIdentity : CalibrationManager :=
  { calibration_points := [], mapping_matrix_x := some ⟨1, 0, 0⟩,
    mapping_matrix_y := some ⟨0, 1, 0⟩, is_calibrated := true }

theorem map_to_screen_clamped_witness :
    fittedIdentity.map_to_screen (some (2, 1/2)) = some (1, 1/2) ∧
    CalibrationManager.init.map_to_screen (some (2, 1/2)) = none := by
  constructor
  · have h := (map_to_screen_clamped fittedIdentity (some (2, 1/2))).2.1
      2 (1/2) ⟨1, 0, 0⟩ ⟨0, 1, 0⟩ rfl rfl rfl rfl
    rw [h]
    norm_num [clamp01, rmin, rmax, dotH]
  · exact (map_to_screen_clamped CalibrationManager.init (some (2, 1/2))).1 (Or.inl rfl)

/-! ## Claims about the gaze smoother -/

/-- C6: `update(None)` returns `None` and leaves the whole smoother state
(either backend, initialized or not) unchanged, so later updates behave as if
the call had not happened. -/
theorem update_none_noop (s : KalmanTracker) : s.update none = (none, s) := rfl

/-- C9: on the first valid observation after construction or reset
(`_initialized` is false), the Kalman backend seeds each per-axis filter with
the raw observed position and zero velocity; the predict-correct cycle then has
zero innovation, so the first returned estimate is exactly the observation,
clamped to `[0, 1]` per axis — whatever covariance the filters carry. -/
theorem kalman_first_estimate (s : KalmanTracker) (kx ky : KFilter) (x y : ℚ)
    (hf : s.hasFilterpy = true) (hx : s.kfX = some kx) (hy : s.kfY = some ky)
    (hinit : s.initialized = false) :
    (s.update (some (x, y))).1 = some (clamp01 x, clamp01 y) := by
  simp only [KalmanTracker.update, hf, hx, hy, KalmanTracker.kalman_update, hinit,
    KFilter.predict, KFilter.correct, if_true]
  norm_num

theorem kalman_first_estimate_witness :
    ((KalmanTracker.init true (1/1000) (1/10)).update (some (3/10, 17/10))).1 =
      some (3/10, 1) := by
  have h := kalman_first_estimate (KalmanTracker.init true (1/1000) (1/10))
    (KFilter.init (1/1000) (1/10)) (KFilter.init (1/1000) (1/10)) (3/10) (17/10)
    rfl rfl rfl rfl
  rw [h]
  norm_num [clamp01, rmin, rmax]

/-- C5 failing input: with the Kalman backend (process noise `1e-3`,
measurement noise `1e-1`), feed one observation `(1/2, 1/2)`, call `reset()`,
then feed `(0, 0)` and `(1, 1)`; a freshly constructed smoother fed the same
`(0, 0)`, `(1, 1)` returns a different second estimate. `reset()` only
multiplies the covariance `P` by `1.0` (a no-op), so the post-reset filters
keep the covariance shrunk by the earlier update and weight the prediction
differently from a fresh instance — the spec's requirement that a reset
instance be observably identical to a fresh one fails. -/
def freshTracker : KalmanTracker := KalmanTracker.init true (1/1000) (1/10)

theorem kalman_reset_not_fresh :
    (((freshTracker.update (some (1/2, 1/2))).2.reset.update (some (0, 0))).2.update
        (some (1, 1))).1 ≠
      ((freshTracker.update (some (0, 0))).2.update (some (1, 1))).1 := by
  norm_num [freshTracker, KalmanTracker.init, KalmanTracker.update,
    KalmanTracker.kalman_update, KalmanTracker.reset, KFilter.init, KFilter.predict,
    KFilter.correct, clamp01, rmin, rmax]

/-- The calibration half of the reset claim does hold: `reset()` returns a
`CalibrationManager` literally equal to a freshly constructed one. -/
theorem calibration_reset_eq_init (s : CalibrationManager) :
    s.reset = CalibrationManager.init := rfl

/-! ## Claims about the gesture classifier -/

/-- C7: any landmark list shorter than the 21 points the classifier indexes
makes some `landmarks[i]` read fail (Python `IndexError`), which the local
`except` converts into the sentinel `('ERROR', 0.0)`; no exception reaches the
caller (the model is a total function). -/
theorem classify_short_input (lm : List Landmark) (h : lm.length < 21) :
    classify_gesture lm = ("ERROR", 0.0) := by
  have h20 : lm[20]? = none := by
    rw [List.getElem?_eq_none_iff]
    omega
  unfold classify_gesture classifyCore
  rw [h20]
  rcases lm[3]? with _ | l3 <;> rcases lm[4]? with _ | l4 <;>
    rcases lm[6]? with _ | l6 <;> rcases lm[8]? with _ | l8 <;>
    rcases lm[10]? with _ | l10 <;> rcases lm[12]? with _ | l12 <;>
    rcases lm[14]? with _ | l14 <;> rcases lm[16]? with _ | l16 <;>
    rcases lm[18]? with _ | l18 <;> rfl

theorem classify_short_input_witness : classify_gesture [] = ("ERROR", 0.0) :=
  classify_short_input [] (by decide)

/-- The six label/confidence pairs the decision tree can produce. -/
def sixResults : List (String × ℚ) :=
  [("CLOSED_FIST", 0.9), ("OPEN_PALM", 0.9), ("POINTING", 0.9),
   ("PINCH", 0.9), ("PEACE_SIGN", 0.8), ("UNKNOWN", 0.5)]

theorem classifyFrom_mem (tIp tTip iPip iTip mPip mTip rPip rTip pPip pTip : Landmark) :
    classifyFrom tIp tTip iPip iTip mPip mTip rPip rTip pPip pTip ∈ sixResults := by
  unfold classifyFrom sixResults
  generalize extendedCount tIp tTip iPip iTip mPip mTip rPip rTip pPip pTip = n
  rcases n with _ | _ | _ | _ | n <;>
    simp only [Nat.succ_ne_zero, if_true, if_false, eq_self_iff_true, Nat.le_add_left,
      reduceIte] <;>
    first
    | (split_ifs <;> simp)
    | simp

theorem classifyCore_mem (lm : List Landmark) (g : String × ℚ)
    (hc : classifyCore lm = some g) : g ∈ sixResults := by
  unfold classifyCore at hc
  split at hc
  · obtain rfl : _ = g := Option.some_injective _ hc
    apply classifyFrom_mem
  · exact absurd hc (by simp)

theorem classifyCore_of_length (lm : List Landmark) (h : 21 ≤ lm.length) :
    (classifyCore lm).isSome := by
  unfold classifyCore
  rw [List.getElem?_eq_getElem (show 3 < lm.length by omega),
    List.getElem?_eq_getElem (show 4 < lm.length by omega),
    List.getElem?_eq_getElem (show 6 < lm.length by omega),
    List.getElem?_eq_getElem (show 8 < lm.length by omega),
    List.getElem?_eq_getElem (show 10 < lm.length by omega),
    List.getElem?_eq_getElem (show 12 < lm.length by omega),
    List.getElem?_eq_getElem (show 14 < lm.length by omega),
    List.getElem?_eq_getElem (show 16 < lm.length by omega),
    List.getElem?_eq_getElem (show 18 < lm.length by omega),
    List.getElem?_eq_getElem (show 20 < lm.length by omega)]
  rfl

/-- C8 counterexample: on the empty landmark list the classifier returns the
sentinel label `'ERROR'`, which is not a member of the closed six-label
enumeration; the claim, which asserts enumeration membership for every input,
fails at this input. -/
theorem classify_label_outside_enum : ¬ (classify_gesture []).1 ∈ gestureLabels := by
  decide

/-- C8 (amended): for every input the returned confidence lies in `[0, 1]` and
the label is in the closed enumeration extended with the sentinel `ERROR`;
for well-formed inputs (at least 21 landmarks) the label is in the closed
six-label enumeration itself. -/
theorem classify_label_and_confidence (lm : List Landmark) :
    ((classify_gesture lm).1 ∈ gestureLabels ∨ (classify_gesture lm).1 = "ERROR") ∧
    0 ≤ (classify_gesture lm).2 ∧ (classify_gesture lm).2 ≤ 1 ∧
    (21 ≤ lm.length → (classify_gesture lm).1 ∈ gestureLabels) := by
  rcases hc : classifyCore lm with _ | g
  · have hg : classify_gesture lm = ("ERROR", 0.0) := by
      unfold classify_gesture
      rw [hc]
    rw [hg]
    refine ⟨Or.inr rfl, by norm_num, by norm_num, fun hlen => ?_⟩
    have := classifyCore_of_length lm hlen
    rw [hc] at this
    exact absurd this (by simp)
  · have hg : classify_gesture lm = g := by
      unfold classify_gesture
      rw [hc]
    have hmem := classifyCore_mem lm g hc
    rw [hg]
    fin_cases hmem <;>
      refine ⟨Or.inl (by decide), by norm_num, by norm_num, fun _ => by decide⟩

theorem classify_label_and_confidence_witness :
    (classify_gesture (List.replicate 21 ⟨0, 0⟩)).1 ∈ gestureLabels :=
  (classify_label_and_confidence (List.replicate 21 ⟨0, 0⟩)).2.2.2 (by simp)

/-- C3: the gesture decision tree. For a well-formed landmark set (the ten
landmarks the classifier reads all present, at the MediaPipe indices: thumb
IP 3, thumb tip 4, index PIP 6, index tip 8, middle PIP 10, middle tip 12,
ring PIP 14, ring tip 16, pinky PIP 18, pinky tip 20), with a non-thumb
finger extended iff its tip y is strictly less than its PIP y and the thumb
extended iff the tip/IP x-distance exceeds 0.04, and `n` the number of
extended fingers: 0 extended gives `(CLOSED_FIST, 0.9)`; at least 4 gives
`(OPEN_PALM, 0.9)`; exactly 1 with the index extended gives `(POINTING, 0.9)`;
exactly 2 with thumb and index the extended pair gives `(PINCH, 0.9)` when the
thumb-tip/index-tip Euclidean distance is under 0.05 (equivalently its square
is under 0.0025) and `(PEACE_SIGN, 0.8)` otherwise; every other combination
gives `(UNKNOWN, 0.5)`. -/
theorem classify_decision_tree (lm : List Landmark)
    (tIp tTip iPip iTip mPip mTip rPip rTip pPip pTip : Landmark)
    (h3 : lm[3]? = some tIp) (h4 : lm[4]? = some tTip)
    (h6 : lm[6]? = some iPip) (h8 : lm[8]? = some iTip)
    (h10 : lm[10]? = some mPip) (h12 : lm[12]? = some mTip)
    (h14 : lm[14]? = some rPip) (h16 : lm[16]? = some rTip)
    (h18 : lm[18]? = some pPip) (h20 : lm[20]? = some pTip)
    (n : Nat) (hn : n = extendedCount tIp tTip iPip iTip mPip mTip rPip rTip pPip pTip) :
    (n = 0 → classify_gesture lm = ("CLOSED_FIST", 0.9)) ∧
    (4 ≤ n → classify_gesture lm = ("OPEN_PALM", 0.9)) ∧
    (n = 1 → iTip.y < iPip.y → classify_gesture lm = ("POINTING", 0.9)) ∧
    (n = 2 → |tTip.x - tIp.x| > 0.04 → iTip.y < iPip.y →
      ((tTip.x - iTip.x) ^ 2 + (tTip.y - iTip.y) ^ 2 < 0.0025 →
        classify_gesture lm = ("PINCH", 0.9)) ∧
      (0.0025 ≤ (tTip.x - iTip.x) ^ 2 + (tTip.y - iTip.y) ^ 2 →
        classify_gesture lm = ("PEACE_SIGN", 0.8))) ∧
    ((n = 1 ∧ ¬ iTip.y < iPip.y) ∨
        (n = 2 ∧ ¬ (|tTip.x - tIp.x| > 0.04 ∧ iTip.y < iPip.y)) ∨ n = 3 →
      classify_gesture lm = ("UNKNOWN", 0.5)) := by
  have hlm : classify_gesture lm = classifyFrom tIp tTip iPip iTip mPip mTip rPip rTip pPip pTip := by
    unfold classify_gesture classifyCore
    rw [h3, h4, h6, h8, h10, h12, h14, h16, h18, h20]
  rw [hlm]
  unfold classifyFrom
  rw [← hn]
  refine ⟨?_, ?_, ?_, ?_, ?_⟩
  · intro h0
    rw [if_pos h0]
  · intro h4n
    rw [if_neg (by omega), if_pos h4n]
  · intro h1 hidx
    rw [if_neg (by omega), if_neg (by omega), if_pos h1, if_pos hidx]
  · intro h2 hthumb hidx
    rw [if_neg (by omega), if_neg (by omega), if_neg (by omega), if_pos h2,
      if_pos ⟨hthumb, hidx⟩]
    constructor
    · intro hd
      rw [if_pos hd]
    · intro hd
      rw [if_neg (not_lt.mpr hd)]
  · rintro (⟨h1, hidx⟩ | ⟨h2, hpair⟩ | h3n)
    · rw [if_neg (by omega), if_neg (by omega), if_pos h1, if_neg hidx]
    · rw [if_neg (by omega), if_neg (by omega), if_neg (by omega), if_pos h2,
        if_neg hpair]
    · rw [if_neg (by omega), if_neg (by omega), if_neg (by omega), if_neg (by omega)]

theorem classify_decision_tree_witness :
    classify_gesture (List.replicate 21 ⟨0, 0⟩) = ("CLOSED_FIST", 0.9) :=
  (classify_decision_tree (List.replicate 21 ⟨0, 0⟩)
    ⟨0, 0⟩ ⟨0, 0⟩ ⟨0, 0⟩ ⟨0, 0⟩ ⟨0, 0⟩ ⟨0, 0⟩ ⟨0, 0⟩ ⟨0, 0⟩ ⟨0, 0⟩ ⟨0, 0⟩
    rfl rfl rfl rfl rfl rfl rfl rfl rfl rfl
    0 (by norm_num [extendedCount])).1 rfl

/-! ## C1: round-trip law for exactly-affine calibration data -/

/-- The iris observation `M * p + c` for screen target `p`, with
`M = [[a, b], [c, d]]` (arguments `a b cc d`) and offset `(e, f)`. -/
def affApply (a b cc d e f : ℚ) (p : ℚ × ℚ) : ℚ × ℚ :=
  (a * p.1 + b * p.2 + e, cc * p.1 + d * p.2 + f)

/-- Collect, from a fresh engine, the 9 samples pairing each standard-grid
target with its affine iris observation. -/
def collectGrid (a b cc d e f : ℚ) : CalibrationManager :=
  get_calibration_points.foldl
    (fun st p => st.collect_sample p.1 p.2 (some (affApply a b cc d e f p)))
    CalibrationManager.init

/-- Coefficients of the x-axis of the inverse affine map. -/
def wstarX (a b cc d e f : ℚ) : Vec3 :=
  ⟨d / (a * d - b * cc), -b / (a * d - b * cc), (b * f - d * e) / (a * d - b * cc)⟩

/-- Coefficients of the y-axis of the inverse affine map. -/
def wstarY (a b cc d e f : ℚ) : Vec3 :=
  ⟨-cc / (a * d - b * cc), a / (a * d - b * cc), (cc * e - a * f) / (a * d - b * cc)⟩

theorem wstarX_exact (a b cc d e f px py : ℚ) (h : a * d - b * cc ≠ 0) :
    dotH (a * px + b * py + e) (cc * px + d * py + f) (wstarX a b cc d e f) = px := by
  unfold dotH wstarX
  field_simp
  ring

theorem wstarY_exact (a b cc d e f px py : ℚ) (h : a * d - b * cc ≠ 0) :
    dotH (a * px + b * py + e) (cc * px + d * py + f) (wstarY a b cc d e f) = py := by
  unfold dotH wstarY
  field_simp
  ring

theorem mulVec_add (m1 m2 : Mat3) (v : Vec3) :
    (m1.add m2).mulVec v = ((m1.mulVec v).add (m2.mulVec v)) := by
  simp only [Mat3.add, Mat3.mulVec, Vec3.add, Vec3.mk.injEq]
  refine ⟨by ring, by ring, by ring⟩

theorem outerSq_mulVec (s : Sample) (v : Vec3) :
    (outerSq s.homog).mulVec v = Vec3.smul (dotH s.iris.1 s.iris.2 v) s.homog := by
  simp only [outerSq, Sample.homog, Mat3.mulVec, Vec3.smul, dotH, Vec3.mk.injEq]
  refine ⟨by ring, by ring, by ring⟩

/-- A coefficient vector that fits every sample exactly solves the normal
equations exactly. -/
theorem gram_mulVec_of_exact (pts : List Sample) (w : Vec3) (f : Sample → ℚ)
    (hfit : ∀ s ∈ pts, dotH s.iris.1 s.iris.2 w = f s) :
    (gram pts).mulVec w = gramRhs f pts := by
  induction pts with
  | nil =>
      simp only [gram, gramRhs, Mat3.mulVec, Vec3.mk.injEq]
      norm_num
  | cons s t ih =>
      simp only [gram, gramRhs, mulVec_add, outerSq_mulVec]
      rw [ih fun p hp => hfit p (List.mem_cons_of_mem s hp),
        hfit s (List.mem_cons_self s t)]

theorem grid_mem_bounds :
    ∀ p ∈ get_calibration_points, 0 ≤ p.1 ∧ p.1 ≤ 1 ∧ 0 ≤ p.2 ∧ p.2 ≤ 1 := by
  intro p hp
  unfold get_calibration_points at hp
  fin_cases hp <;> norm_num

/-- C1: for every invertible `M = [[a, b], [cc, d]]` and offset `(e, f)`, if a
fresh engine collects the 9 samples pairing each standard-grid target `p` with
the iris observation `M * p + (e, f)` and `calibrate()` then succeeds, the
fitted model maps every one of those iris observations back to its grid
target exactly (the clamp is the identity on the grid). -/
theorem calibrate_roundtrip (a b cc d e f : ℚ) (hM : a * d - b * cc ≠ 0)
    (hfit : ((collectGrid a b cc d e f).calibrate).1 = true) :
    ∀ p ∈ get_calibration_points,
      ((collectGrid a b cc d e f).calibrate).2.map_to_screen
        (some (affApply a b cc d e f p)) = some p := by
  have hpts_map : (collectGrid a b cc d e f).calibration_points =
      get_calibration_points.map
        (fun p => { screen := p, iris := affApply a b cc d e f p }) := rfl
  have hlen : ¬ ((collectGrid a b cc d e f).calibration_points.length < 4) := by
    rw [hpts_map, List.length_map]
    decide
  by_cases hdet : (gram ((collectGrid a b cc d e f).calibration_points)).det = 0
  · exfalso
    simp only [CalibrationManager.calibrate, if_neg hlen, solve3, if_pos hdet] at hfit
    exact absurd hfit (by decide)
  · have hexact_x : ∀ s ∈ (collectGrid a b cc d e f).calibration_points,
        dotH s.iris.1 s.iris.2 (wstarX a b cc d e f) = s.screen.1 := by
      rw [hpts_map]
      intro s hs
      obtain ⟨p, hp, rfl⟩ := List.mem_map.mp hs
      obtain ⟨px, py⟩ := p
      exact wstarX_exact a b cc d e f px py hM
    have hexact_y : ∀ s ∈ (collectGrid a b cc d e f).calibration_points,
        dotH s.iris.1 s.iris.2 (wstarY a b cc d e f) = s.screen.2 := by
      rw [hpts_map]
      intro s hs
      obtain ⟨p, hp, rfl⟩ := List.mem_map.mp hs
      obtain ⟨px, py⟩ := p
      exact wstarY_exact a b cc d e f px py hM
    have hGx := gram_mulVec_of_exact _ _ _ hexact_x
    have hGy := gram_mulVec_of_exact _ _ _ hexact_y
    have hwx : cramerSolve (gram ((collectGrid a b cc d e f).calibration_points))
        (gramRhs (fun p => p.screen.1) ((collectGrid a b cc d e f).calibration_points)) =
        wstarX a b cc d e f := by
      refine mulVec_inj _ _ _ hdet ?_
      rw [cramerSolve_mulVec _ _ hdet, hGx]
    have hwy : cramerSolve (gram ((collectGrid a b cc d e f).calibration_points))
        (gramRhs (fun p => p.screen.2) ((collectGrid a b cc d e f).calibration_points)) =
        wstarY a b cc d e f := by
      refine mulVec_inj _ _ _ hdet ?_
      rw [cramerSolve_mulVec _ _ hdet, hGy]
    intro p hp
    obtain ⟨px, py⟩ := p
    obtain ⟨hb1, hb2, hb3, hb4⟩ := grid_mem_bounds (px, py) hp
    simp only [CalibrationManager.calibrate, if_neg hlen, solve3, if_neg hdet,
      CalibrationManager.map_to_screen, hwx, hwy, affApply]
    rw [wstarX_exact a b cc d e f px py hM, wstarY_exact a b cc d e f px py hM,
      clamp01_eq_self px hb1 hb2, clamp01_eq_self py hb3 hb4]
    simp

theorem calibrate_roundtrip_witness :
    ((collectGrid 1 0 0 1 0 0).calibrate).1 = true ∧
    ((collectGrid 1 0 0 1 0 0).calibrate).2.map_to_screen
        (some (affApply 1 0 0 1 0 0 (0.1, 0.1))) = some (0.1, 0.1) := by
  have hfit : ((collectGrid 1 0 0 1 0 0).calibrate).1 = true := by
    norm_num [collectGrid, get_calibration_points, CalibrationManager.collect_sample,
      CalibrationManager.init, CalibrationManager.calibrate, gram, gramRhs, outerSq,
      Sample.homog, Mat3.add, Vec3.add, Vec3.smul, Mat3.det, solve3, affApply,
      List.foldl]
  exact ⟨hfit, calibrate_roundtrip 1 0 0 1 0 0 (by norm_num) hfit (0.1, 0.1)
    (by simp [get_calibration_points])⟩

/-! ## C10: the moving-average fallback -/

/-- The suffix of the last (at most) `n` entries of a list. -/
def lastN (n : Nat) (l : List (ℚ × ℚ)) : List (ℚ × ℚ) := l.drop (l.length - n)

theorem window_step (m : List (ℚ × ℚ)) (p : ℚ × ℚ) :
    (if 5 < (lastN 5 m ++ [p]).length then (lastN 5 m ++ [p]).tail
      else lastN 5 m ++ [p]) = lastN 5 (m ++ [p]) := by
  by_cases h : m.length ≤ 4
  · have h1 : lastN 5 m = m := by
      unfold lastN
      rw [Nat.sub_eq_zero_of_le (by omega), List.drop_zero]
    rw [h1, if_neg (by simp; omega)]
    unfold lastN
    rw [List.length_append, List.length_singleton,
      Nat.sub_eq_zero_of_le (by omega), List.drop_zero]
  · have hlen : (lastN 5 m).length = 5 := by
      unfold lastN
      rw [List.length_drop]
      omega
    rw [if_pos (by rw [List.length_append, hlen]; simp)]
    have hd : lastN 5 m ++ [p] = (m ++ [p]).drop (m.length - 5) := by
      unfold lastN
      rw [List.drop_append_of_le_length (by omega)]
    rw [hd, List.tail_drop]
    unfold lastN
    congr 1
    rw [List.length_append, List.length_singleton]
    omega

/-- Running the fallback backend keeps the window equal to the last at-most-5
valid observations. -/
theorem run_fallback_window (l : List (Option (ℚ × ℚ))) :
    ∀ (m : List (ℚ × ℚ)) (s : KalmanTracker),
      s.hasFilterpy = false → s.window_size = 5 → s.fallback_window = lastN 5 m →
      (s.run l).hasFilterpy = false ∧ (s.run l).window_size = 5 ∧
      (s.run l).fallback_window = lastN 5 (m ++ l.filterMap id) := by
  induction l with
  | nil =>
      intro m s h1 h2 h3
      exact ⟨h1, h2, by simpa using h3⟩
  | cons o t ih =>
      intro m s h1 h2 h3
      rcases o with _ | ⟨x, y⟩
      · have hrun : s.run (none :: t) = s.run t := rfl
        rw [hrun]
        simpa using ih m s h1 h2 h3
      · have hrun : s.run (some (x, y) :: t) = ((s.update (some (x, y))).2).run t := rfl
        have hupd : (s.update (some (x, y))).2 =
            { s with fallback_window := lastN 5 (m ++ [(x, y)]) } := by
          simp only [KalmanTracker.update, h1, KalmanTracker.moving_average_update,
        Bool.false_eq_true, if_false]
          rw [h3, h2, window_step]
        rw [hrun, hupd]
        have hres := ih (m ++ [(x, y)]) { s with fallback_window := lastN 5 (m ++ [(x, y)]) }
          h1 h2 rfl
        simpa [List.append_assoc] using hres

theorem lastN_ne_nil (n : Nat) (l : List (ℚ × ℚ)) (hn : 0 < n) (hl : l ≠ []) :
    lastN n l ≠ [] := by
  unfold lastN
  intro h
  have hlen := congrArg List.length h
  rw [List.length_drop, List.length_nil] at hlen
  have hlp := List.length_pos.mpr hl
  omega

theorem sum_div_length_bounds (w : List ℚ) (lo hi : ℚ) (hne : w ≠ [])
    (h : ∀ a ∈ w, lo ≤ a ∧ a ≤ hi) :
    lo ≤ w.sum / (w.length : ℚ) ∧ w.sum / (w.length : ℚ) ≤ hi := by
  have hpos : (0 : ℚ) < (w.length : ℚ) := by
    exact_mod_cast List.length_pos.mpr hne
  constructor
  · rw [le_div_iff₀ hpos]
    have hs := List.card_nsmul_le_sum w lo (fun a ha => (h a ha).1)
    rw [nsmul_eq_mul] at hs
    linarith
  · rw [div_le_iff₀ hpos]
    have hs := List.sum_le_card_nsmul w hi (fun a ha => (h a ha).2)
    rw [nsmul_eq_mul] at hs
    linarith

/-- C10: in the moving-average fallback backend, the next output is the
per-axis arithmetic mean of the most recent at-most-5 valid observations
(`v`, the last at-most-5 entries of the valid observations fed so far plus
the current one); each output coordinate therefore lies between any lower and
upper bound of the corresponding coordinates of those observations, and if
every observation fed since construction lies in `[0,1] × [0,1]` then so does
the output, although this code path applies no explicit clamping. -/
theorem fallback_moving_average (l : List (Option (ℚ × ℚ))) (x y q r : ℚ)
    (v : List (ℚ × ℚ)) (hv : v = lastN 5 (l.filterMap id ++ [(x, y)])) :
    (((KalmanTracker.init false q r).run l).update (some (x, y))).1 =
      some ((v.map Prod.fst).sum / (v.length : ℚ), (v.map Prod.snd).sum / (v.length : ℚ)) ∧
    (∀ lo hi, (∀ p ∈ v, lo ≤ p.1 ∧ p.1 ≤ hi) →
      lo ≤ (v.map Prod.fst).sum / (v.length : ℚ) ∧
        (v.map Prod.fst).sum / (v.length : ℚ) ≤ hi) ∧
    (∀ lo hi, (∀ p ∈ v, lo ≤ p.2 ∧ p.2 ≤ hi) →
      lo ≤ (v.map Prod.snd).sum / (v.length : ℚ) ∧
        (v.map Prod.snd).sum / (v.length : ℚ) ≤ hi) ∧
    ((∀ p ∈ l.filterMap id, 0 ≤ p.1 ∧ p.1 ≤ 1 ∧ 0 ≤ p.2 ∧ p.2 ≤ 1) →
      0 ≤ x → x ≤ 1 → 0 ≤ y → y ≤ 1 →
      0 ≤ (v.map Prod.fst).sum / (v.length : ℚ) ∧
        (v.map Prod.fst).sum / (v.length : ℚ) ≤ 1 ∧
        0 ≤ (v.map Prod.snd).sum / (v.length : ℚ) ∧
        (v.map Prod.snd).sum / (v.length : ℚ) ≤ 1) := by
  have hrun := run_fallback_window l [] (KalmanTracker.init false q r) rfl rfl rfl
  obtain ⟨hhf, hws, hwin⟩ := hrun
  rw [List.nil_append] at hwin
  have hvne : v ≠ [] := by
    rw [hv]
    exact lastN_ne_nil 5 _ (by omega) (by simp)
  have hmne : v.map Prod.fst ≠ [] := by
    simpa using hvne
  have hmne2 : v.map Prod.snd ≠ [] := by
    simpa using hvne
  have hboundsX : ∀ lo hi, (∀ p ∈ v, lo ≤ p.1 ∧ p.1 ≤ hi) →
      lo ≤ (v.map Prod.fst).sum / (v.length : ℚ) ∧
        (v.map Prod.fst).sum / (v.length : ℚ) ≤ hi := by
    intro lo hi hb
    have := sum_div_length_bounds (v.map Prod.fst) lo hi hmne ?_
    · rwa [List.length_map] at this
    · intro a ha
      obtain ⟨p, hp, rfl⟩ := List.mem_map.mp ha
      exact hb p hp
  have hboundsY : ∀ lo hi, (∀ p ∈ v, lo ≤ p.2 ∧ p.2 ≤ hi) →
      lo ≤ (v.map Prod.snd).sum / (v.length : ℚ) ∧
        (v.map Prod.snd).sum / (v.length : ℚ) ≤ hi := by
    intro lo hi hb
    have := sum_div_length_bounds (v.map Prod.snd) lo hi hmne2 ?_
    · rwa [List.length_map] at this
    · intro a ha
      obtain ⟨p, hp, rfl⟩ := List.mem_map.mp ha
      exact hb p hp
  refine ⟨?_, hboundsX, hboundsY, ?_⟩
  · simp only [KalmanTracker.update, hhf, KalmanTracker.moving_average_update,
      Bool.false_eq_true, if_false]
    rw [hwin, hws, window_step, ← hv]
  · intro hall hx0 hx1 hy0 hy1
    have hmem : ∀ p ∈ v, (0 ≤ p.1 ∧ p.1 ≤ 1) ∧ (0 ≤ p.2 ∧ p.2 ≤ 1) := by
      intro p hp
      have hp2 : p ∈ l.filterMap id ++ [(x, y)] := by
        rw [hv] at hp
        exact List.drop_subset _ _ hp
      rcases List.mem_append.mp hp2 with hp3 | hp3
      · obtain ⟨b1, b2, b3, b4⟩ := hall p hp3
        exact ⟨⟨b1, b2⟩, ⟨b3, b4⟩⟩
      · rw [List.mem_singleton.mp hp3]
        exact ⟨⟨hx0, hx1⟩, ⟨hy0, hy1⟩⟩
    obtain ⟨ha1, ha2⟩ := hboundsX 0 1 (fun p hp => (hmem p hp).1)
    obtain ⟨ha3, ha4⟩ := hboundsY 0 1 (fun p hp => (hmem p hp).2)
    exact ⟨ha1, ha2, ha3, ha4⟩

theorem fallback_moving_average_witness :
    (((KalmanTracker.init false 0 0).run [some (0, 0), none, some (1, 1)]).update
        (some (1/2, 1/2))).1 = some (1/2, 1/2) := by
  have h := (fallback_moving_average [some (0, 0), none, some (1, 1)] (1/2) (1/2) 0 0
    [(0, 0), (1, 1), (1/2, 1/2)] rfl).1
  rw [h]
  norm_num
